import Mathlib

/-!
Verification of the bool-telemetry-client core (`src/lib.rs`): the shared
`DeviceStatus` store, the 30-slot bandwidth window, the reporter readiness
gate, and the JSON-RPC transport. Rust `u64` arithmetic is modelled as `Nat`
with explicit reduction modulo `2 ^ 64` (release-mode wrapping semantics);
`Vec<T>` is modelled as `List`; fallible operations (a `Vec::remove` that can
panic, HTTP calls, serde decoding) return `Option` / `Except`.
-/

namespace Telemetry

/-- Modulus of Rust's `u64` arithmetic. -/
def U64_MOD : Nat := 2 ^ 64

/-- A JSON value, as produced/consumed by `serde_json`. -/
inductive Json where
  | null
  | bool (b : Bool)
  | num (n : Int)
  | str (s : String)
  | arr (elems : List Json)
  | obj (fields : List (String × Json))

/-- `struct JsonRpcRequest` from `lib.rs` lines 14-20. -/
structure JsonRpcRequest where
  jsonrpc : String
  method : String
  params : Json
  id : Nat

/-- `struct JsonRpcResponse` from `lib.rs` lines 22-28: `result` and `error`
are `Option<serde_json::Value>`. -/
structure JsonRpcResponse where
  jsonrpc : String
  result : Option Json
  error : Option Json
  id : Nat

/-- `struct DeviceStatus` from `lib.rs` lines 30-46. `u32`/`u64`/`u8` fields
are `Nat`, `i64` is `Int`, `Vec` is `List`. -/
structure DeviceStatus where
  device_id : String
  device_owner : String
  device_version : String
  peer_id : String
  peers_count : Nat
  best_block_number : Nat
  finalized_block_number : Nat
  upload_bandwidth : List Nat
  download_bandwidth : List Nat
  uptime : Int
  monitor_type : Nat
  monitor_sync_chains : List (Nat × Nat)
  errors : List Nat
deriving DecidableEq

/-- The `#[derive(Default)]` value of `DeviceStatus`: empty strings, zero
numbers, empty vectors. -/
def DeviceStatus.zero : DeviceStatus :=
  { device_id := ""
    device_owner := ""
    device_version := ""
    peer_id := ""
    peers_count := 0
    best_block_number := 0
    finalized_block_number := 0
    upload_bandwidth := []
    download_bandwidth := []
    uptime := 0
    monitor_type := 0
    monitor_sync_chains := []
    errors := [] }

/-- `DeviceStatus::new` (lines 48-55): the default value with both bandwidth
vectors set to `vec![0; 30]`. -/
def DeviceStatus.new : DeviceStatus :=
  { DeviceStatus.zero with
    upload_bandwidth := List.replicate 30 0
    download_bandwidth := List.replicate 30 0 }

/-- The reporter loop's readiness gate, `start_update_status` lines 129-131:
`!device_id.is_empty() && !device_owner.is_empty() && !peer_id.is_empty()`. -/
def shouldReport (d : DeviceStatus) : Bool :=
  !d.device_id.isEmpty && !d.device_owner.isEmpty && !d.peer_id.isEmpty

/-- `set_device_id` (lines 142-144), with the global locked store made an
explicit state argument. -/
def set_device_id (v : String) (s : DeviceStatus) : DeviceStatus :=
  { s with device_id := v }

/-- `set_device_owner` (lines 146-148). -/
def set_device_owner (v : String) (s : DeviceStatus) : DeviceStatus :=
  { s with device_owner := v }

/-- `set_device_version` (lines 150-152). -/
def set_device_version (v : String) (s : DeviceStatus) : DeviceStatus :=
  { s with device_version := v }

/-- `set_peer_id` (lines 154-156). -/
def set_peer_id (v : String) (s : DeviceStatus) : DeviceStatus :=
  { s with peer_id := v }

/-- `set_peers_count` (lines 158-160). -/
def set_peers_count (v : Nat) (s : DeviceStatus) : DeviceStatus :=
  { s with peers_count := v }

/-- `set_best_block_number` (lines 162-164). -/
def set_best_block_number (v : Nat) (s : DeviceStatus) : DeviceStatus :=
  { s with best_block_number := v }

/-- `set_finalized_block_number` (lines 166-168). -/
def set_finalized_block_number (v : Nat) (s : DeviceStatus) : DeviceStatus :=
  { s with finalized_block_number := v }

/-- `set_uptime` (lines 170-172). -/
def set_uptime (v : Int) (s : DeviceStatus) : DeviceStatus :=
  { s with uptime := v }

/-- `set_monitor_sync_status` (lines 174-177): assigns `monitor_type` then
`monitor_sync_chains`. -/
def set_monitor_sync_status (ty : Nat) (chains : List (Nat × Nat))
    (s : DeviceStatus) : DeviceStatus :=
  { s with monitor_type := ty, monitor_sync_chains := chains }

/-- `set_errors` (lines 179-181). -/
def set_errors (v : List Nat) (s : DeviceStatus) : DeviceStatus :=
  { s with errors := v }

/-- The shared body of `add_upload`/`add_download` (lines 183-195): `pop` the
last element; if one was there, `push` it back with `n` added (u64 wrapping
addition). On the empty vector `pop` yields `None` and nothing happens. -/
def addBucket (l : List Nat) (n : Nat) : List Nat :=
  match l.getLast? with
  | some old => l.dropLast ++ [(old + n) % U64_MOD]
  | none => l

/-- `add_upload` (lines 183-188). -/
def add_upload (n : Nat) (s : DeviceStatus) : DeviceStatus :=
  { s with upload_bandwidth := addBucket s.upload_bandwidth n }

/-- `add_download` (lines 190-195). -/
def add_download (n : Nat) (s : DeviceStatus) : DeviceStatus :=
  { s with download_bandwidth := addBucket s.download_bandwidth n }

/-- Iterated `add_upload` calls, oldest first. -/
def addUploads (ns : List Nat) (s : DeviceStatus) : DeviceStatus :=
  ns.foldl (fun t n => add_upload n t) s

/-- Iterated `add_download` calls, oldest first. -/
def addDownloads (ns : List Nat) (s : DeviceStatus) : DeviceStatus :=
  ns.foldl (fun t n => add_download n t) s

/-- One list's worth of the seed rotation performed at the top of
`start_calculate_bandwidth` (lines 102-106): `pop()` then `push(0)`. -/
def seedRotateList (l : List Nat) : List Nat :=
  l.dropLast ++ [0]

/-- The immediate seed rotation of `start_calculate_bandwidth` (lines
101-107), applied to both bandwidth vectors. -/
def seedRotate (s : DeviceStatus) : DeviceStatus :=
  { s with
    upload_bandwidth := seedRotateList s.upload_bandwidth
    download_bandwidth := seedRotateList s.download_bandwidth }

/-- One list's worth of the periodic rotation (lines 113-117): `remove(0)`
then `push(0)`. `Vec::remove(0)` panics on an empty vector, modelled as
`none`. -/
def rotateList (l : List Nat) : Option (List Nat) :=
  match l with
  | [] => none
  | _ :: t => some (t ++ [0])

/-- One tick of the periodic rotation task (lines 112-117), applied to both
bandwidth vectors; `none` models the panic on an empty vector. -/
def rotateStatus (s : DeviceStatus) : Option DeviceStatus :=
  match rotateList s.upload_bandwidth, rotateList s.download_bandwidth with
  | some u, some d =>
      some { s with upload_bandwidth := u, download_bandwidth := d }
  | _, _ => none

/-- Every mutation of the shared store that the library performs. -/
inductive StoreOp where
  | setDeviceId (v : String)
  | setDeviceOwner (v : String)
  | setDeviceVersion (v : String)
  | setPeerId (v : String)
  | setPeersCount (v : Nat)
  | setBestBlockNumber (v : Nat)
  | setFinalizedBlockNumber (v : Nat)
  | setUptime (v : Int)
  | setMonitorSyncStatus (ty : Nat) (chains : List (Nat × Nat))
  | setErrorCodes (v : List Nat)
  | addUpload (n : Nat)
  | addDownload (n : Nat)
  | seedRotation
  | rotation

/-- Apply one store operation; `none` models a panic. -/
def applyOp : StoreOp → DeviceStatus → Option DeviceStatus
  | .setDeviceId v, s => some (set_device_id v s)
  | .setDeviceOwner v, s => some (set_device_owner v s)
  | .setDeviceVersion v, s => some (set_device_version v s)
  | .setPeerId v, s => some (set_peer_id v s)
  | .setPeersCount v, s => some (set_peers_count v s)
  | .setBestBlockNumber v, s => some (set_best_block_number v s)
  | .setFinalizedBlockNumber v, s => some (set_finalized_block_number v s)
  | .setUptime v, s => some (set_uptime v s)
  | .setMonitorSyncStatus ty chains, s => some (set_monitor_sync_status ty chains s)
  | .setErrorCodes v, s => some (set_errors v s)
  | .addUpload n, s => some (add_upload n s)
  | .addDownload n, s => some (add_download n s)
  | .seedRotation, s => some (seedRotate s)
  | .rotation, s => rotateStatus s

/-- Apply a sequence of store operations, oldest first. -/
def applyOps (ops : List StoreOp) (s : DeviceStatus) : Option DeviceStatus :=
  ops.foldlM (fun t op => applyOp op t) s

/-- The specified length invariant on the two bandwidth windows. -/
def bandwidthInvariant (s : DeviceStatus) : Prop :=
  s.upload_bandwidth.length = 30 ∧ s.download_bandwidth.length = 30

/-- Serde serialization of `DeviceStatus` (derive `Serialize`, lines 30-46):
an object with one entry per field in declaration order; tuples become
two-element arrays. -/
def deviceStatusToJson (s : DeviceStatus) : Json :=
  .obj [
    ("device_id", .str s.device_id),
    ("device_owner", .str s.device_owner),
    ("device_version", .str s.device_version),
    ("peer_id", .str s.peer_id),
    ("peers_count", .num (s.peers_count : Int)),
    ("best_block_number", .num (s.best_block_number : Int)),
    ("finalized_block_number", .num (s.finalized_block_number : Int)),
    ("upload_bandwidth", .arr (s.upload_bandwidth.map (fun n => .num (n : Int)))),
    ("download_bandwidth", .arr (s.download_bandwidth.map (fun n => .num (n : Int)))),
    ("uptime", .num s.uptime),
    ("monitor_type", .num (s.monitor_type : Int)),
    ("monitor_sync_chains",
      .arr (s.monitor_sync_chains.map (fun p => .arr [.num (p.1 : Int), .num (p.2 : Int)]))),
    ("errors", .arr (s.errors.map (fun n => .num (n : Int))))
  ]

/-- The request built by `update_status` (lines 62-67). -/
def updateStatusRequest (params : DeviceStatus) : JsonRpcRequest :=
  { jsonrpc := "2.0"
    method := "update_status"
    params := deviceStatusToJson params
    id := 1 }

/-- The request built by `get_status` (lines 82-87). -/
def getStatusRequest : JsonRpcRequest :=
  { jsonrpc := "2.0"
    method := "get_status"
    params := Json.null
    id := 2 }

/-- Serde field lookup: the first entry with the given key, if any. -/
def lookupField (fields : List (String × Json)) (k : String) : Option Json :=
  (fields.find? (fun p => p.1 == k)).map (fun p => p.2)

/-- Serde decoding of a `String` field. -/
def decodeString : Json → Option String
  | .str s => some s
  | _ => none

/-- Serde decoding of a `u32` field: an integer in `[0, 2^32)`. -/
def decodeU32 : Json → Option Nat
  | .num n => if 0 ≤ n ∧ n < 2 ^ 32 then some n.toNat else none
  | _ => none

/-- Serde decoding of a `u64` field: an integer in `[0, 2^64)`. -/
def decodeU64 : Json → Option Nat
  | .num n => if 0 ≤ n ∧ n < 2 ^ 64 then some n.toNat else none
  | _ => none

/-- Serde decoding of a `u8` field: an integer in `[0, 2^8)`. -/
def decodeU8 : Json → Option Nat
  | .num n => if 0 ≤ n ∧ n < 2 ^ 8 then some n.toNat else none
  | _ => none

/-- Serde decoding of an `i64` field: an integer in `[-2^63, 2^63)`. -/
def decodeI64 : Json → Option Int
  | .num n => if -(2 ^ 63) ≤ n ∧ n < 2 ^ 63 then some n else none
  | _ => none

/-- Serde decoding of a `Vec<u64>` field. -/
def decodeU64List : Json → Option (List Nat)
  | .arr xs => xs.mapM decodeU64
  | _ => none

/-- Serde decoding of a `Vec<u8>` field. -/
def decodeU8List : Json → Option (List Nat)
  | .arr xs => xs.mapM decodeU8
  | _ => none

/-- Serde decoding of a `(u32, u32)` tuple: exactly a two-element array. -/
def decodePairU32 : Json → Option (Nat × Nat)
  | .arr [a, b] => do
      let x ← decodeU32 a
      let y ← decodeU32 b
      pure (x, y)
  | _ => none

/-- Serde decoding of a `Vec<(u32, u32)>` field. -/
def decodePairList : Json → Option (List (Nat × Nat))
  | .arr xs => xs.mapM decodePairU32
  | _ => none

/-- Serde deserialization of the `DeviceStatus` fields that follow
`peers_count` in declaration order; all of them are required. -/
def decodeStatusRest (fields : List (String × Json))
    (device_id device_owner device_version peer_id : String)
    (peers_count : Nat) : Option DeviceStatus := do
  let best_block_number ← lookupField fields "best_block_number" >>= decodeU32
  let finalized_block_number ← lookupField fields "finalized_block_number" >>= decodeU32
  let upload_bandwidth ← lookupField fields "upload_bandwidth" >>= decodeU64List
  let download_bandwidth ← lookupField fields "download_bandwidth" >>= decodeU64List
  let uptime ← lookupField fields "uptime" >>= decodeI64
  let monitor_type ← lookupField fields "monitor_type" >>= decodeU8
  let monitor_sync_chains ← lookupField fields "monitor_sync_chains" >>= decodePairList
  let errorCodes ← lookupField fields "errors" >>= decodeU8List
  pure
    { device_id := device_id
      device_owner := device_owner
      device_version := device_version
      peer_id := peer_id
      peers_count := peers_count
      best_block_number := best_block_number
      finalized_block_number := finalized_block_number
      upload_bandwidth := upload_bandwidth
      download_bandwidth := download_bandwidth
      uptime := uptime
      monitor_type := monitor_type
      monitor_sync_chains := monitor_sync_chains
      errors := errorCodes }

/-- Serde deserialization of `DeviceStatus` (derive `Deserialize`, lines
30-46): every field is required except `peers_count`, which carries
`#[serde(default)]` and falls back to `0` when absent. -/
def deviceStatusFromJson : Json → Option DeviceStatus
  | .obj fields => do
      let device_id ← lookupField fields "device_id" >>= decodeString
      let device_owner ← lookupField fields "device_owner" >>= decodeString
      let device_version ← lookupField fields "device_version" >>= decodeString
      let peer_id ← lookupField fields "peer_id" >>= decodeString
      let peers_count ←
        match lookupField fields "peers_count" with
        | none => some 0
        | some v => decodeU32 v
      decodeStatusRest fields device_id device_owner device_version peer_id
        peers_count
  | _ => none

/-- The wire field names that are required on deserialization (all of them
except `peers_count`). -/
def requiredStatusFields : List String :=
  ["device_id", "device_owner", "device_version", "peer_id",
   "best_block_number", "finalized_block_number",
   "upload_bandwidth", "download_bandwidth",
   "uptime", "monitor_type", "monitor_sync_chains", "errors"]

/-- Serde decoding of an `Option<serde_json::Value>` field: absent or `null`
gives `None`, anything else wraps. This never fails. -/
def decodeOptValue (fields : List (String × Json)) (k : String) : Option Json :=
  match lookupField fields k with
  | none => none
  | some .null => none
  | some v => some v

/-- Serde deserialization of `JsonRpcResponse` (lines 22-28): `jsonrpc` and
`id` are required, `result` and `error` are `Option`s defaulting to `None`. -/
def decodeJsonRpcResponse : Json → Option JsonRpcResponse
  | .obj fields => do
      let jsonrpc ← lookupField fields "jsonrpc" >>= decodeString
      let id ← lookupField fields "id" >>= decodeU32
      pure
        { jsonrpc := jsonrpc
          result := decodeOptValue fields "result"
          error := decodeOptValue fields "error"
          id := id }
  | _ => none

/-- A log line emitted by the transport. -/
inductive LogEvent where
  | logDebug (v : Json)
  | logInfo (v : Json)
  | logError (v : Json)

/-- The two error outcomes `update_status`/`get_status` can propagate: the
`send().await?` network failure and the `.json().await?` body-decode
failure. -/
inductive RpcFailure where
  | network
  | decodeBody
deriving DecidableEq

/-- The outcome of the HTTP exchange, abstracting the remote collector:
either the send failed at the network level, or a response body arrived. -/
inductive HttpExchange where
  | failed
  | responded (body : Json)

/-- Decoding and logging of a received `update_status` response body (lines
69-77): body-decode failure propagates; otherwise a present `result` is
logged at debug level, else a present `error` at error level, and the call
returns `Ok(())`. The returned list holds the log lines emitted. -/
def handleUpdateBody (body : Json) : Except RpcFailure (List LogEvent) :=
  match decodeJsonRpcResponse body with
  | none => .error .decodeBody
  | some resp =>
      match resp.result with
      | some r => .ok [.logDebug r]
      | none =>
          match resp.error with
          | some e => .ok [.logError e]
          | none => .ok []

/-- Decoding and logging of a received `get_status` response body (lines
89-97): identical to `update_status` except a `result` is logged at info
level. -/
def handleGetBody (body : Json) : Except RpcFailure (List LogEvent) :=
  match decodeJsonRpcResponse body with
  | none => .error .decodeBody
  | some resp =>
      match resp.result with
      | some r => .ok [.logInfo r]
      | none =>
          match resp.error with
          | some e => .ok [.logError e]
          | none => .ok []

/-- The outcome of one `update_status` call (lines 57-78): the network
failure of `send().await?` propagates, otherwise the body is handled. -/
def runUpdateStatus : HttpExchange → Except RpcFailure (List LogEvent)
  | .failed => .error .network
  | .responded body => handleUpdateBody body

/-- The outcome of one `get_status` call (lines 81-98). -/
def runGetStatus : HttpExchange → Except RpcFailure (List LogEvent)
  | .failed => .error .network
  | .responded body => handleGetBody body

/-! ### Helper lemmas about the bandwidth window primitives -/

theorem addBucket_length (l : List Nat) (n : Nat) :
    (addBucket l n).length = l.length := by
  unfold addBucket
  cases h : l.getLast? with
  | none => rfl
  | some old =>
    have hne : l ≠ [] := by
      intro he
      rw [he] at h
      simp at h
    have hpos : 0 < l.length := List.length_pos.mpr hne
    simp only [List.length_append, List.length_dropLast, List.length_singleton]
    omega

theorem seedRotateList_length (l : List Nat) (h : l ≠ []) :
    (seedRotateList l).length = l.length := by
  have hpos : 0 < l.length := List.length_pos.mpr h
  simp only [seedRotateList, List.length_append, List.length_dropLast,
    List.length_singleton]
  omega

theorem applyOp_preserves (op : StoreOp) (s : DeviceStatus)
    (h : bandwidthInvariant s) :
    ∃ s', applyOp op s = some s' ∧ bandwidthInvariant s' := by
  obtain ⟨hu, hd⟩ := h
  cases op with
  | setDeviceId v => exact ⟨_, rfl, hu, hd⟩
  | setDeviceOwner v => exact ⟨_, rfl, hu, hd⟩
  | setDeviceVersion v => exact ⟨_, rfl, hu, hd⟩
  | setPeerId v => exact ⟨_, rfl, hu, hd⟩
  | setPeersCount v => exact ⟨_, rfl, hu, hd⟩
  | setBestBlockNumber v => exact ⟨_, rfl, hu, hd⟩
  | setFinalizedBlockNumber v => exact ⟨_, rfl, hu, hd⟩
  | setUptime v => exact ⟨_, rfl, hu, hd⟩
  | setMonitorSyncStatus ty chains => exact ⟨_, rfl, hu, hd⟩
  | setErrorCodes v => exact ⟨_, rfl, hu, hd⟩
  | addUpload n =>
    refine ⟨_, rfl, ?_, hd⟩
    show (addBucket s.upload_bandwidth n).length = 30
    rw [addBucket_length]
    exact hu
  | addDownload n =>
    refine ⟨_, rfl, hu, ?_⟩
    show (addBucket s.download_bandwidth n).length = 30
    rw [addBucket_length]
    exact hd
  | seedRotation =>
    have hu' : s.upload_bandwidth ≠ [] := by
      intro he
      rw [he] at hu
      simp at hu
    have hd' : s.download_bandwidth ≠ [] := by
      intro he
      rw [he] at hd
      simp at hd
    refine ⟨_, rfl, ?_, ?_⟩
    · show (seedRotateList s.upload_bandwidth).length = 30
      rw [seedRotateList_length _ hu']
      exact hu
    · show (seedRotateList s.download_bandwidth).length = 30
      rw [seedRotateList_length _ hd']
      exact hd
  | rotation =>
    obtain ⟨a, tu, htu⟩ : ∃ a t, s.upload_bandwidth = a :: t := by
      cases h : s.upload_bandwidth with
      | nil => rw [h] at hu; simp at hu
      | cons a t => exact ⟨a, t, rfl⟩
    obtain ⟨b, td, htd⟩ : ∃ b t, s.download_bandwidth = b :: t := by
      cases h : s.download_bandwidth with
      | nil => rw [h] at hd; simp at hd
      | cons b t => exact ⟨b, t, rfl⟩
    refine ⟨{ s with upload_bandwidth := tu ++ [0], download_bandwidth := td ++ [0] },
      ?_, ?_, ?_⟩
    · show rotateStatus s = some _
      unfold rotateStatus
      rw [htu, htd]
      rfl
    · show (tu ++ [0]).length = 30
      rw [htu] at hu
      simp at hu ⊢
      omega
    · show (td ++ [0]).length = 30
      rw [htd] at hd
      simp at hd ⊢
      omega

theorem applyOps_preserves (ops : List StoreOp) (s : DeviceStatus)
    (h : bandwidthInvariant s) :
    ∃ s', applyOps ops s = some s' ∧ bandwidthInvariant s' := by
  induction ops generalizing s with
  | nil => exact ⟨s, rfl, h⟩
  | cons op ops ih =>
    obtain ⟨t, ht, hinv⟩ := applyOp_preserves op s h
    obtain ⟨s', hs', hinv'⟩ := ih t hinv
    refine ⟨s', ?_, hinv'⟩
    show List.foldlM (fun t op => applyOp op t) s (op :: ops) = some s'
    rw [List.foldlM_cons, ht]
    exact hs'

theorem new_invariant : bandwidthInvariant DeviceStatus.new :=
  ⟨rfl, rfl⟩

/-! ### The claims -/

/-- C1: the Reporter Loop's readiness predicate is true iff `device_id`,
`device_owner`, and `peer_id` are all non-empty, and it only depends on
those three fields. -/
theorem claim1_readiness_gate (s t : DeviceStatus) :
    (shouldReport s = true ↔
      s.device_id ≠ "" ∧ s.device_owner ≠ "" ∧ s.peer_id ≠ "")
    ∧ (s.device_id = t.device_id → s.device_owner = t.device_owner →
        s.peer_id = t.peer_id → shouldReport s = shouldReport t) := by
  constructor
  · simp [shouldReport, String.isEmpty_iff, Bool.eq_false_iff, and_assoc]
  · intro h1 h2 h3
    simp [shouldReport, h1, h2, h3]

/-- Witness for C1 at a concrete pair of snapshots differing only in
`peers_count`. -/
theorem claim1_readiness_gate_witness :
    shouldReport
        (set_peers_count 7
          (set_peer_id "p" (set_device_owner "o"
            (set_device_id "d" DeviceStatus.new))))
      = shouldReport
        (set_peer_id "p" (set_device_owner "o"
          (set_device_id "d" DeviceStatus.new))) :=
  (claim1_readiness_gate _ _).2 rfl rfl rfl

/-- C6: `update_status` builds exactly the request `jsonrpc: "2.0"`,
`method: "update_status"`, `params`: the serialized snapshot (a structured
object), `id: 1`; `get_status` builds `method: "get_status"`,
`params: null`, `id: 2`. -/
theorem claim6_request_shape (s : DeviceStatus) :
    (updateStatusRequest s).jsonrpc = "2.0"
    ∧ (updateStatusRequest s).method = "update_status"
    ∧ (updateStatusRequest s).params = deviceStatusToJson s
    ∧ (∃ fields, deviceStatusToJson s = Json.obj fields)
    ∧ (updateStatusRequest s).id = 1
    ∧ getStatusRequest.jsonrpc = "2.0"
    ∧ getStatusRequest.method = "get_status"
    ∧ getStatusRequest.params = Json.null
    ∧ getStatusRequest.id = 2 :=
  ⟨rfl, rfl, rfl, ⟨_, rfl⟩, rfl, rfl, rfl, rfl, rfl⟩

/-- C9: every setter assigns exactly its named field(s) and leaves every
other field unchanged; in particular no setter touches either bandwidth
sequence, and arbitrary input values are accepted. -/
theorem claim9_setter_frame (s : DeviceStatus) (v : String) (m b f : Nat)
    (u : Int) (ty : Nat) (chains : List (Nat × Nat)) (es : List Nat) :
    ((set_device_id v s).device_id = v
      ∧ (set_device_id v s).device_owner = s.device_owner
      ∧ (set_device_id v s).device_version = s.device_version
      ∧ (set_device_id v s).peer_id = s.peer_id
      ∧ (set_device_id v s).peers_count = s.peers_count
      ∧ (set_device_id v s).best_block_number = s.best_block_number
      ∧ (set_device_id v s).finalized_block_number = s.finalized_block_number
      ∧ (set_device_id v s).upload_bandwidth = s.upload_bandwidth
      ∧ (set_device_id v s).download_bandwidth = s.download_bandwidth
      ∧ (set_device_id v s).uptime = s.uptime
      ∧ (set_device_id v s).monitor_type = s.monitor_type
      ∧ (set_device_id v s).monitor_sync_chains = s.monitor_sync_chains
      ∧ (set_device_id v s).errors = s.errors)
    ∧ ((set_monitor_sync_status ty chains s).monitor_type = ty
      ∧ (set_monitor_sync_status ty chains s).monitor_sync_chains = chains
      ∧ (set_monitor_sync_status ty chains s).device_id = s.device_id
      ∧ (set_monitor_sync_status ty chains s).device_owner = s.device_owner
      ∧ (set_monitor_sync_status ty chains s).device_version = s.device_version
      ∧ (set_monitor_sync_status ty chains s).peer_id = s.peer_id
      ∧ (set_monitor_sync_status ty chains s).peers_count = s.peers_count
      ∧ (set_monitor_sync_status ty chains s).best_block_number = s.best_block_number
      ∧ (set_monitor_sync_status ty chains s).finalized_block_number
          = s.finalized_block_number
      ∧ (set_monitor_sync_status ty chains s).upload_bandwidth = s.upload_bandwidth
      ∧ (set_monitor_sync_status ty chains s).download_bandwidth = s.download_bandwidth
      ∧ (set_monitor_sync_status ty chains s).uptime = s.uptime
      ∧ (set_monitor_sync_status ty chains s).errors = s.errors)
    ∧ ((set_errors es s).errors = es
      ∧ (set_errors es s).device_id = s.device_id
      ∧ (set_errors es s).device_owner = s.device_owner
      ∧ (set_errors es s).device_version = s.device_version
      ∧ (set_errors es s).peer_id = s.peer_id
      ∧ (set_errors es s).peers_count = s.peers_count
      ∧ (set_errors es s).best_block_number = s.best_block_number
      ∧ (set_errors es s).finalized_block_number = s.finalized_block_number
      ∧ (set_errors es s).upload_bandwidth = s.upload_bandwidth
      ∧ (set_errors es s).download_bandwidth = s.download_bandwidth
      ∧ (set_errors es s).uptime = s.uptime
      ∧ (set_errors es s).monitor_type = s.monitor_type
      ∧ (set_errors es s).monitor_sync_chains = s.monitor_sync_chains)
    ∧ ((set_device_owner v s).device_owner = v
      ∧ (set_device_owner v s).device_id = s.device_id
      ∧ (set_device_owner v s).device_version = s.device_version
      ∧ (set_device_owner v s).peer_id = s.peer_id
      ∧ (set_device_owner v s).peers_count = s.peers_count
      ∧ (set_device_owner v s).best_block_number = s.best_block_number
      ∧ (set_device_owner v s).finalized_block_number = s.finalized_block_number
      ∧ (set_device_owner v s).upload_bandwidth = s.upload_bandwidth
      ∧ (set_device_owner v s).download_bandwidth = s.download_bandwidth
      ∧ (set_device_owner v s).uptime = s.uptime
      ∧ (set_device_owner v s).monitor_type = s.monitor_type
      ∧ (set_device_owner v s).monitor_sync_chains = s.monitor_sync_chains
      ∧ (set_device_owner v s).errors = s.errors)
    ∧ ((set_device_version v s).device_version = v
      ∧ (set_device_version v s).device_id = s.device_id
      ∧ (set_device_version v s).device_owner = s.device_owner
      ∧ (set_device_version v s).peer_id = s.peer_id
      ∧ (set_device_version v s).peers_count = s.peers_count
      ∧ (set_device_version v s).best_block_number = s.best_block_number
      ∧ (set_device_version v s).finalized_block_number = s.finalized_block_number
      ∧ (set_device_version v s).upload_bandwidth = s.upload_bandwidth
      ∧ (set_device_version v s).download_bandwidth = s.download_bandwidth
      ∧ (set_device_version v s).uptime = s.uptime
      ∧ (set_device_version v s).monitor_type = s.monitor_type
      ∧ (set_device_version v s).monitor_sync_chains = s.monitor_sync_chains
      ∧ (set_device_version v s).errors = s.errors)
    ∧ ((set_peer_id v s).peer_id = v
      ∧ (set_peer_id v s).device_id = s.device_id
      ∧ (set_peer_id v s).device_owner = s.device_owner
      ∧ (set_peer_id v s).device_version = s.device_version
      ∧ (set_peer_id v s).peers_count = s.peers_count
      ∧ (set_peer_id v s).best_block_number = s.best_block_number
      ∧ (set_peer_id v s).finalized_block_number = s.finalized_block_number
      ∧ (set_peer_id v s).upload_bandwidth = s.upload_bandwidth
      ∧ (set_peer_id v s).download_bandwidth = s.download_bandwidth
      ∧ (set_peer_id v s).uptime = s.uptime
      ∧ (set_peer_id v s).monitor_type = s.monitor_type
      ∧ (set_peer_id v s).monitor_sync_chains = s.monitor_sync_chains
      ∧ (set_peer_id v s).errors = s.errors)
    ∧ ((set_peers_count m s).peers_count = m
      ∧ (set_peers_count m s).device_id = s.device_id
      ∧ (set_peers_count m s).device_owner = s.device_owner
      ∧ (set_peers_count m s).device_version = s.device_version
      ∧ (set_peers_count m s).peer_id = s.peer_id
      ∧ (set_peers_count m s).best_block_number = s.best_block_number
      ∧ (set_peers_count m s).finalized_block_number = s.finalized_block_number
      ∧ (set_peers_count m s).upload_bandwidth = s.upload_bandwidth
      ∧ (set_peers_count m s).download_bandwidth = s.download_bandwidth
      ∧ (set_peers_count m s).uptime = s.uptime
      ∧ (set_peers_count m s).monitor_type = s.monitor_type
      ∧ (set_peers_count m s).monitor_sync_chains = s.monitor_sync_chains
      ∧ (set_peers_count m s).errors = s.errors)
    ∧ ((set_best_block_number b s).best_block_number = b
      ∧ (set_best_block_number b s).device_id = s.device_id
      ∧ (set_best_block_number b s).device_owner = s.device_owner
      ∧ (set_best_block_number b s).device_version = s.device_version
      ∧ (set_best_block_number b s).peer_id = s.peer_id
      ∧ (set_best_block_number b s).peers_count = s.peers_count
      ∧ (set_best_block_number b s).finalized_block_number = s.finalized_block_number
      ∧ (set_best_block_number b s).upload_bandwidth = s.upload_bandwidth
      ∧ (set_best_block_number b s).download_bandwidth = s.download_bandwidth
      ∧ (set_best_block_number b s).uptime = s.uptime
      ∧ (set_best_block_number b s).monitor_type = s.monitor_type
      ∧ (set_best_block_number b s).monitor_sync_chains = s.monitor_sync_chains
      ∧ (set_best_block_number b s).errors = s.errors)
    ∧ ((set_finalized_block_number f s).finalized_block_number = f
      ∧ (set_finalized_block_number f s).device_id = s.device_id
      ∧ (set_finalized_block_number f s).device_owner = s.device_owner
      ∧ (set_finalized_block_number f s).device_version = s.device_version
      ∧ (set_finalized_block_number f s).peer_id = s.peer_id
      ∧ (set_finalized_block_number f s).peers_count = s.peers_count
      ∧ (set_finalized_block_number f s).best_block_number = s.best_block_number
      ∧ (set_finalized_block_number f s).upload_bandwidth = s.upload_bandwidth
      ∧ (set_finalized_block_number f s).download_bandwidth = s.download_bandwidth
      ∧ (set_finalized_block_number f s).uptime = s.uptime
      ∧ (set_finalized_block_number f s).monitor_type = s.monitor_type
      ∧ (set_finalized_block_number f s).monitor_sync_chains = s.monitor_sync_chains
      ∧ (set_finalized_block_number f s).errors = s.errors)
    ∧ ((set_uptime u s).uptime = u
      ∧ (set_uptime u s).device_id = s.device_id
      ∧ (set_uptime u s).device_owner = s.device_owner
      ∧ (set_uptime u s).device_version = s.device_version
      ∧ (set_uptime u s).peer_id = s.peer_id
      ∧ (set_uptime u s).peers_count = s.peers_count
      ∧ (set_uptime u s).best_block_number = s.best_block_number
      ∧ (set_uptime u s).finalized_block_number = s.finalized_block_number
      ∧ (set_uptime u s).upload_bandwidth = s.upload_bandwidth
      ∧ (set_uptime u s).download_bandwidth = s.download_bandwidth
      ∧ (set_uptime u s).monitor_type = s.monitor_type
      ∧ (set_uptime u s).monitor_sync_chains = s.monitor_sync_chains
      ∧ (set_uptime u s).errors = s.errors) := by
  repeat' apply And.intro
  all_goals rfl

/-- C10: the tail-bucket addition of `add_upload`/`add_download` is an
unguarded `u64` addition: the new tail is `(t + n) % 2 ^ 64`, so an
overflowing sum wraps around, as on the concrete input
`t = 2 ^ 64 - 1`, `n = 1`. -/
theorem claim10_wrapping_add :
    (∀ (pre : List Nat) (t n : Nat),
      addBucket (pre ++ [t]) n = pre ++ [(t + n) % 2 ^ 64])
    ∧ addBucket [2 ^ 64 - 1] 1 = [0] := by
  constructor
  · intro pre t n
    simp [addBucket, List.getLast?_concat, List.dropLast_concat, U64_MOD]
  · show addBucket ([] ++ [2 ^ 64 - 1]) 1 = [0]
    simp [addBucket, List.getLast?_concat, List.dropLast_concat, U64_MOD]

/-- C2: both bandwidth sequences have length 30 after `DeviceStatus::new`,
and every store operation — each setter, `add_upload`, `add_download`, the
seed rotation and every periodic rotation — preserves that length, so the
invariant holds at every observable point (any operation sequence from the
initial state). -/
theorem claim2_length_invariant :
    bandwidthInvariant DeviceStatus.new
    ∧ (∀ op s, bandwidthInvariant s →
        ∃ s', applyOp op s = some s' ∧ bandwidthInvariant s')
    ∧ (∀ ops, ∃ s', applyOps ops DeviceStatus.new = some s'
        ∧ bandwidthInvariant s') :=
  ⟨new_invariant, applyOp_preserves,
    fun ops => applyOps_preserves ops DeviceStatus.new new_invariant⟩

/-- Witness for C2: one concrete step (an `add_upload` from the initial
state) taken through the preservation statement. -/
theorem claim2_length_invariant_witness :
    ∃ s', applyOp (StoreOp.addUpload 5) DeviceStatus.new = some s'
      ∧ bandwidthInvariant s' :=
  claim2_length_invariant.2.1 (StoreOp.addUpload 5) DeviceStatus.new ⟨rfl, rfl⟩

theorem rotateList_spec (l : List Nat) (h : l.length = 30) :
    ∃ l', rotateList l = some l' ∧ l'.length = 30
      ∧ (∀ i, 1 ≤ i → i < 30 → l'[i - 1]? = l[i]?)
      ∧ l'[29]? = some 0 := by
  cases l with
  | nil => simp at h
  | cons a t =>
    have ht : t.length = 29 := by
      simp at h
      omega
    refine ⟨t ++ [0], rfl, ?_, ?_, ?_⟩
    · simp [ht]
    · intro i h1 h2
      obtain ⟨k, rfl⟩ : ∃ k, i = k + 1 := ⟨i - 1, by omega⟩
      have hk : k < t.length := by omega
      simp [List.getElem?_append_left hk]
    · rw [List.getElem?_append_right (by omega)]
      simp [ht]

/-- C3: one periodic rotation of a length-30 window drops the head element,
shifts every other element down by one, and appends a fresh zero at index
29, preserving length 30, for both bandwidth sequences. -/
theorem claim3_rotation (s : DeviceStatus)
    (hu : s.upload_bandwidth.length = 30)
    (hd : s.download_bandwidth.length = 30) :
    ∃ s', rotateStatus s = some s'
      ∧ s'.upload_bandwidth.length = 30
      ∧ s'.download_bandwidth.length = 30
      ∧ (∀ i, 1 ≤ i → i < 30 →
          s'.upload_bandwidth[i - 1]? = s.upload_bandwidth[i]?
          ∧ s'.download_bandwidth[i - 1]? = s.download_bandwidth[i]?)
      ∧ s'.upload_bandwidth[29]? = some 0
      ∧ s'.download_bandwidth[29]? = some 0 := by
  obtain ⟨u, huu, hul, hui, hut⟩ := rotateList_spec s.upload_bandwidth hu
  obtain ⟨d, hdd, hdl, hdi, hdt⟩ := rotateList_spec s.download_bandwidth hd
  refine ⟨{ s with upload_bandwidth := u, download_bandwidth := d },
    ?_, hul, hdl, ?_, hut, hdt⟩
  · show rotateStatus s = some _
    unfold rotateStatus
    rw [huu, hdd]
  · intro i h1 h2
    exact ⟨hui i h1 h2, hdi i h1 h2⟩

/-- Witness for C3 at the concrete initial snapshot. -/
theorem claim3_rotation_witness :
    ∃ s', rotateStatus DeviceStatus.new = some s'
      ∧ s'.upload_bandwidth.length = 30
      ∧ s'.download_bandwidth.length = 30
      ∧ (∀ i, 1 ≤ i → i < 30 →
          s'.upload_bandwidth[i - 1]? = DeviceStatus.new.upload_bandwidth[i]?
          ∧ s'.download_bandwidth[i - 1]? = DeviceStatus.new.download_bandwidth[i]?)
      ∧ s'.upload_bandwidth[29]? = some 0
      ∧ s'.download_bandwidth[29]? = some 0 :=
  claim3_rotation DeviceStatus.new rfl rfl

theorem seedRotateList_spec (l : List Nat) (h : l.length = 30) :
    (seedRotateList l).length = 30
    ∧ (∀ i, i < 29 → (seedRotateList l)[i]? = l[i]?)
    ∧ (seedRotateList l)[29]? = some 0 := by
  have hlen : l.dropLast.length = 29 := by
    simp [List.length_dropLast, h]
  refine ⟨?_, ?_, ?_⟩
  · simp [seedRotateList, h]
  · intro i hi
    rw [seedRotateList, List.getElem?_append_left (by omega)]
    rw [List.dropLast_eq_take, List.getElem?_take, if_pos (by omega)]
  · rw [seedRotateList, List.getElem?_append_right (by omega)]
    simp [hlen]

/-- C8: the immediate seed rotation performed before the periodic loop
starts drops the tail element of each bandwidth sequence and appends a
fresh zero — for a length-30 sequence it zeroes the tail bucket, leaves
indices 0 through 28 unchanged, and keeps the length at 30. -/
theorem claim8_seed_rotation (s : DeviceStatus)
    (hu : s.upload_bandwidth.length = 30)
    (hd : s.download_bandwidth.length = 30) :
    ((seedRotate s).upload_bandwidth = s.upload_bandwidth.dropLast ++ [0]
      ∧ (seedRotate s).download_bandwidth = s.download_bandwidth.dropLast ++ [0])
    ∧ (seedRotate s).upload_bandwidth.length = 30
    ∧ (seedRotate s).download_bandwidth.length = 30
    ∧ (∀ i, i < 29 →
        (seedRotate s).upload_bandwidth[i]? = s.upload_bandwidth[i]?
        ∧ (seedRotate s).download_bandwidth[i]? = s.download_bandwidth[i]?)
    ∧ (seedRotate s).upload_bandwidth[29]? = some 0
    ∧ (seedRotate s).download_bandwidth[29]? = some 0 := by
  obtain ⟨hl1, hi1, ht1⟩ := seedRotateList_spec s.upload_bandwidth hu
  obtain ⟨hl2, hi2, ht2⟩ := seedRotateList_spec s.download_bandwidth hd
  exact ⟨⟨rfl, rfl⟩, hl1, hl2, fun i hi => ⟨hi1 i hi, hi2 i hi⟩, ht1, ht2⟩

/-- Witness for C8 at the concrete initial snapshot. -/
theorem claim8_seed_rotation_witness :
    ((seedRotate DeviceStatus.new).upload_bandwidth
        = DeviceStatus.new.upload_bandwidth.dropLast ++ [0]
      ∧ (seedRotate DeviceStatus.new).download_bandwidth
        = DeviceStatus.new.download_bandwidth.dropLast ++ [0])
    ∧ (seedRotate DeviceStatus.new).upload_bandwidth.length = 30
    ∧ (seedRotate DeviceStatus.new).download_bandwidth.length = 30
    ∧ (∀ i, i < 29 →
        (seedRotate DeviceStatus.new).upload_bandwidth[i]?
          = DeviceStatus.new.upload_bandwidth[i]?
        ∧ (seedRotate DeviceStatus.new).download_bandwidth[i]?
          = DeviceStatus.new.download_bandwidth[i]?)
    ∧ (seedRotate DeviceStatus.new).upload_bandwidth[29]? = some 0
    ∧ (seedRotate DeviceStatus.new).download_bandwidth[29]? = some 0 :=
  claim8_seed_rotation DeviceStatus.new rfl rfl

theorem foldl_addBucket (ns : List Nat) (pre : List Nat) (t : Nat) :
    ns.foldl addBucket (pre ++ [t])
      = pre ++ [ns.foldl (fun a n => (a + n) % U64_MOD) t] := by
  induction ns generalizing t with
  | nil => rfl
  | cons n ns ih =>
    rw [List.foldl_cons, List.foldl_cons]
    rw [show addBucket (pre ++ [t]) n = pre ++ [(t + n) % U64_MOD] by
      simp [addBucket, List.getLast?_concat, List.dropLast_concat]]
    exact ih ((t + n) % U64_MOD)

theorem foldl_wrap_eq_sum (ns : List Nat) (t : Nat) (h : t + ns.sum < U64_MOD) :
    ns.foldl (fun a n => (a + n) % U64_MOD) t = t + ns.sum := by
  induction ns generalizing t with
  | nil => simp
  | cons n ns ih =>
    have hs : t + n + ns.sum < U64_MOD := by
      simp [List.sum_cons] at h
      omega
    have hmod : (t + n) % U64_MOD = t + n :=
      Nat.mod_eq_of_lt (by omega)
    rw [List.foldl_cons, hmod, ih (t + n) hs]
    simp [List.sum_cons, Nat.add_assoc]

theorem addUploads_fields (ns : List Nat) (s : DeviceStatus) :
    (addUploads ns s).upload_bandwidth = ns.foldl addBucket s.upload_bandwidth
    ∧ (addUploads ns s).download_bandwidth = s.download_bandwidth := by
  induction ns generalizing s with
  | nil => exact ⟨rfl, rfl⟩
  | cons n ns ih => exact ih (add_upload n s)

theorem addDownloads_fields (ns : List Nat) (s : DeviceStatus) :
    (addDownloads ns s).download_bandwidth
      = ns.foldl addBucket s.download_bandwidth
    ∧ (addDownloads ns s).upload_bandwidth = s.upload_bandwidth := by
  induction ns generalizing s with
  | nil => exact ⟨rfl, rfl⟩
  | cons n ns ih => exact ih (add_download n s)

/-- C4: a sequence of `add_upload(n_1), ..., add_upload(n_k)` calls with no
intervening rotation adds exactly `n_1 + ... + n_k` to the tail element of
`upload_bandwidth` (when the total fits in a `u64`), leaves every other
element untouched, and leaves `download_bandwidth` alone; on an empty
sequence the call is a no-op; symmetrically for `add_download`. -/
theorem claim4_add_accumulates (s : DeviceStatus) (ns : List Nat)
    (hu : s.upload_bandwidth ≠ []) (hd : s.download_bandwidth ≠ [])
    (hfu : s.upload_bandwidth.getLast hu + ns.sum < U64_MOD)
    (hfd : s.download_bandwidth.getLast hd + ns.sum < U64_MOD) :
    ((addUploads ns s).upload_bandwidth
        = s.upload_bandwidth.dropLast
          ++ [s.upload_bandwidth.getLast hu + ns.sum]
      ∧ (addUploads ns s).download_bandwidth = s.download_bandwidth)
    ∧ ((addDownloads ns s).download_bandwidth
        = s.download_bandwidth.dropLast
          ++ [s.download_bandwidth.getLast hd + ns.sum]
      ∧ (addDownloads ns s).upload_bandwidth = s.upload_bandwidth)
    ∧ (∀ n, addBucket [] n = [])
    ∧ (∀ (n : Nat) (t : DeviceStatus),
        t.upload_bandwidth = [] → add_upload n t = t)
    ∧ (∀ (n : Nat) (t : DeviceStatus),
        t.download_bandwidth = [] → add_download n t = t) := by
  have keyU : ns.foldl addBucket s.upload_bandwidth
      = s.upload_bandwidth.dropLast
        ++ [s.upload_bandwidth.getLast hu + ns.sum] := by
    conv_lhs => rw [← List.dropLast_append_getLast hu]
    rw [foldl_addBucket, foldl_wrap_eq_sum _ _ hfu]
  have keyD : ns.foldl addBucket s.download_bandwidth
      = s.download_bandwidth.dropLast
        ++ [s.download_bandwidth.getLast hd + ns.sum] := by
    conv_lhs => rw [← List.dropLast_append_getLast hd]
    rw [foldl_addBucket, foldl_wrap_eq_sum _ _ hfd]
  refine ⟨⟨?_, (addUploads_fields ns s).2⟩,
    ⟨?_, (addDownloads_fields ns s).2⟩, ?_, ?_, ?_⟩
  · rw [(addUploads_fields ns s).1, keyU]
  · rw [(addDownloads_fields ns s).1, keyD]
  · intro n
    rfl
  · intro n t ht
    cases t
    simp only at ht
    subst ht
    rfl
  · intro n t ht
    cases t
    simp only at ht
    subst ht
    rfl

/-- Witness for C4: `add_upload(100)` then `add_upload(50)` on the initial
snapshot puts 150 in the tail bucket and leaves the other 29 buckets at
zero. -/
theorem claim4_add_accumulates_witness :
    (addUploads [100, 50] DeviceStatus.new).upload_bandwidth
      = List.replicate 29 0 ++ [150] := by
  rw [(claim4_add_accumulates DeviceStatus.new [100, 50]
    (by decide) (by decide) (by decide) (by decide)).1.1]
  rfl

/-- C5: `update_status` and `get_status` succeed whenever a response body
decodes as a JSON-RPC envelope — even one carrying an `error` payload, which
is only logged — and return an error outcome exactly for network failure or
body-decode failure, and for no other cause. -/
theorem claim5_transport_outcomes :
    (∀ body resp, decodeJsonRpcResponse body = some resp →
        (runUpdateStatus (.responded body)).isOk = true
        ∧ (runGetStatus (.responded body)).isOk = true)
    ∧ runUpdateStatus .failed = .error .network
    ∧ runGetStatus .failed = .error .network
    ∧ (∀ body, decodeJsonRpcResponse body = none →
        runUpdateStatus (.responded body) = .error .decodeBody
        ∧ runGetStatus (.responded body) = .error .decodeBody)
    ∧ (∀ ex e, runUpdateStatus ex = .error e →
        ex = .failed
        ∨ ∃ body, ex = .responded body ∧ decodeJsonRpcResponse body = none)
    ∧ (∀ ex e, runGetStatus ex = .error e →
        ex = .failed
        ∨ ∃ body, ex = .responded body ∧ decodeJsonRpcResponse body = none) := by
  refine ⟨?_, rfl, rfl, ?_, ?_, ?_⟩
  · intro body resp h
    obtain ⟨jr, res, err, rid⟩ := resp
    constructor
    · show (handleUpdateBody body).isOk = true
      unfold handleUpdateBody
      rw [h]
      cases res with
      | some r => rfl
      | none =>
        cases err with
        | some e => rfl
        | none => rfl
    · show (handleGetBody body).isOk = true
      unfold handleGetBody
      rw [h]
      cases res with
      | some r => rfl
      | none =>
        cases err with
        | some e => rfl
        | none => rfl
  · intro body h
    constructor
    · show handleUpdateBody body = .error .decodeBody
      unfold handleUpdateBody
      rw [h]
    · show handleGetBody body = .error .decodeBody
      unfold handleGetBody
      rw [h]
  · intro ex e h
    cases ex with
    | failed => exact Or.inl rfl
    | responded body =>
      refine Or.inr ⟨body, rfl, ?_⟩
      replace h : handleUpdateBody body = .error e := h
      unfold handleUpdateBody at h
      cases hb : decodeJsonRpcResponse body with
      | none => rfl
      | some resp =>
        obtain ⟨jr, res, err, rid⟩ := resp
        rw [hb] at h
        cases res with
        | some r => exact Except.noConfusion h
        | none =>
          cases err with
          | some er => exact Except.noConfusion h
          | none => exact Except.noConfusion h
  · intro ex e h
    cases ex with
    | failed => exact Or.inl rfl
    | responded body =>
      refine Or.inr ⟨body, rfl, ?_⟩
      replace h : handleGetBody body = .error e := h
      unfold handleGetBody at h
      cases hb : decodeJsonRpcResponse body with
      | none => rfl
      | some resp =>
        obtain ⟨jr, res, err, rid⟩ := resp
        rw [hb] at h
        cases res with
        | some r => exact Except.noConfusion h
        | none =>
          cases err with
          | some er => exact Except.noConfusion h
          | none => exact Except.noConfusion h

/-- A concrete response body carrying a protocol-level `error` payload. -/
def errorRespBody : Json :=
  .obj [("jsonrpc", .str "2.0"),
        ("error", .obj [("code", .num (-1)), ("message", .str "bad")]),
        ("id", .num 1)]

/-- Witness for C5: the envelope with an `error` payload still yields a
success outcome from both operations. -/
theorem claim5_transport_outcomes_witness :
    (runUpdateStatus (.responded errorRespBody)).isOk = true
    ∧ (runGetStatus (.responded errorRespBody)).isOk = true :=
  claim5_transport_outcomes.1 errorRespBody
    { jsonrpc := "2.0"
      result := none
      error := some (.obj [("code", .num (-1)), ("message", .str "bad")])
      id := 1 }
    rfl

theorem decodeStatusRest_peers (fields : List (String × Json))
    (a b c d : String) (pc : Nat) (s : DeviceStatus)
    (h : decodeStatusRest fields a b c d pc = some s) :
    s.peers_count = pc := by
  simp only [decodeStatusRest, Option.bind_eq_bind, Option.bind_eq_some,
    Option.pure_def, Option.some.injEq] at h
  obtain ⟨bb, -, fb, -, ub, -, db, -, ut, -, mt, -, mc, -, er, -, hrec⟩ := h
  subst hrec
  rfl

theorem decodeStatusRest_lookups (fields : List (String × Json))
    (a b c d : String) (pc : Nat) (s : DeviceStatus)
    (h : decodeStatusRest fields a b c d pc = some s) :
    (∃ j, lookupField fields "best_block_number" = some j)
    ∧ (∃ j, lookupField fields "finalized_block_number" = some j)
    ∧ (∃ j, lookupField fields "upload_bandwidth" = some j)
    ∧ (∃ j, lookupField fields "download_bandwidth" = some j)
    ∧ (∃ j, lookupField fields "uptime" = some j)
    ∧ (∃ j, lookupField fields "monitor_type" = some j)
    ∧ (∃ j, lookupField fields "monitor_sync_chains" = some j)
    ∧ (∃ j, lookupField fields "errors" = some j) := by
  simp only [decodeStatusRest, Option.bind_eq_bind, Option.bind_eq_some,
    Option.pure_def, Option.some.injEq] at h
  obtain ⟨bb, ⟨j5, hj5, -⟩, fb, ⟨j6, hj6, -⟩, ub, ⟨j7, hj7, -⟩,
    db, ⟨j8, hj8, -⟩, ut, ⟨j9, hj9, -⟩, mt, ⟨j10, hj10, -⟩,
    mc, ⟨j11, hj11, -⟩, er, ⟨j12, hj12, -⟩, -⟩ := h
  exact ⟨⟨j5, hj5⟩, ⟨j6, hj6⟩, ⟨j7, hj7⟩, ⟨j8, hj8⟩,
    ⟨j9, hj9⟩, ⟨j10, hj10⟩, ⟨j11, hj11⟩, ⟨j12, hj12⟩⟩

/-- C7: on deserialization of a `DeviceStatus` wire object, `peers_count`
defaults to 0 when absent, and it is the only field with a default — an
object missing any of the other twelve fields fails to decode. -/
theorem claim7_wire_defaults (fields : List (String × Json)) :
    (lookupField fields "peers_count" = none →
      ∀ s, deviceStatusFromJson (.obj fields) = some s → s.peers_count = 0)
    ∧ (∀ f, f ∈ requiredStatusFields → lookupField fields f = none →
        deviceStatusFromJson (.obj fields) = none) := by
  constructor
  · intro hpc s hs
    simp only [deviceStatusFromJson, Option.bind_eq_bind, Option.bind_eq_some] at hs
    obtain ⟨a, -, b, -, c, -, d, -, hs⟩ := hs
    rw [hpc] at hs
    simp only [Option.some_bind] at hs
    exact decodeStatusRest_peers fields a b c d 0 s hs
  · intro f hf hnone
    by_contra hne
    obtain ⟨s, hs⟩ := Option.ne_none_iff_exists'.mp hne
    simp only [deviceStatusFromJson, Option.bind_eq_bind, Option.bind_eq_some] at hs
    obtain ⟨a, ⟨ja, hja, -⟩, b, ⟨jb, hjb, -⟩, c, ⟨jc, hjc, -⟩,
      d, ⟨jd, hjd, -⟩, hs⟩ := hs
    have hrest : ∃ pc, decodeStatusRest fields a b c d pc = some s := by
      cases hp : lookupField fields "peers_count" with
      | none =>
        rw [hp] at hs
        simp only [Option.some_bind] at hs
        exact ⟨0, hs⟩
      | some v =>
        rw [hp] at hs
        simp only [Option.bind_eq_some] at hs
        obtain ⟨pc, -, hs⟩ := hs
        exact ⟨pc, hs⟩
    obtain ⟨pc, hrest⟩ := hrest
    obtain ⟨h5, h6, h7, h8, h9, h10, h11, h12⟩ :=
      decodeStatusRest_lookups fields a b c d pc s hrest
    simp only [requiredStatusFields, List.mem_cons, List.not_mem_nil,
      or_false] at hf
    rcases hf with rfl | rfl | rfl | rfl | rfl | rfl | rfl | rfl | rfl | rfl | rfl | rfl
    · rw [hnone] at hja; exact Option.noConfusion hja
    · rw [hnone] at hjb; exact Option.noConfusion hjb
    · rw [hnone] at hjc; exact Option.noConfusion hjc
    · rw [hnone] at hjd; exact Option.noConfusion hjd
    · obtain ⟨j, hj⟩ := h5; rw [hnone] at hj; exact Option.noConfusion hj
    · obtain ⟨j, hj⟩ := h6; rw [hnone] at hj; exact Option.noConfusion hj
    · obtain ⟨j, hj⟩ := h7; rw [hnone] at hj; exact Option.noConfusion hj
    · obtain ⟨j, hj⟩ := h8; rw [hnone] at hj; exact Option.noConfusion hj
    · obtain ⟨j, hj⟩ := h9; rw [hnone] at hj; exact Option.noConfusion hj
    · obtain ⟨j, hj⟩ := h10; rw [hnone] at hj; exact Option.noConfusion hj
    · obtain ⟨j, hj⟩ := h11; rw [hnone] at hj; exact Option.noConfusion hj
    · obtain ⟨j, hj⟩ := h12; rw [hnone] at hj; exact Option.noConfusion hj

/-- A concrete wire object carrying all required fields but no
`peers_count`. -/
def wireNoPeers : List (String × Json) :=
  [("device_id", .str "d"), ("device_owner", .str "o"),
   ("device_version", .str "1"), ("peer_id", .str "p"),
   ("best_block_number", .num 5), ("finalized_block_number", .num 4),
   ("upload_bandwidth", .arr [.num 1, .num 2]),
   ("download_bandwidth", .arr []),
   ("uptime", .num (-3)), ("monitor_type", .num 2),
   ("monitor_sync_chains", .arr [.arr [.num 1, .num 9]]),
   ("errors", .arr [.num 7])]

/-- The snapshot `wireNoPeers` decodes to. -/
def wireNoPeersDecoded : DeviceStatus :=
  { device_id := "d", device_owner := "o", device_version := "1",
    peer_id := "p", peers_count := 0, best_block_number := 5,
    finalized_block_number := 4, upload_bandwidth := [1, 2],
    download_bandwidth := [], uptime := -3, monitor_type := 2,
    monitor_sync_chains := [(1, 9)], errors := [7] }

/-- Witness for C7: decoding `wireNoPeers` yields `peers_count = 0`, and
dropping its `device_id` entry makes decoding fail. -/
theorem claim7_wire_defaults_witness :
    wireNoPeersDecoded.peers_count = 0
    ∧ deviceStatusFromJson (.obj wireNoPeers.tail) = none :=
  ⟨(claim7_wire_defaults wireNoPeers).1 rfl wireNoPeersDecoded rfl,
   (claim7_wire_defaults wireNoPeers.tail).2 "device_id"
     (by simp [requiredStatusFields]) rfl⟩

end Telemetry
